import Mathlib

/-!
Verification of the local-first sync subsystem of a personal budget tracker.

The definitions below are a shallow embedding of the backup / restore /
wallet logic found in `src/pages/Settings.tsx` (the application state
provider) and `src/services/cloudDrive.ts` (the remote-store client).
Remote calls are modelled by passing their outcome (an `Except` or
`Option` value) as an explicit argument; JavaScript truthiness tests that
the code performs on remote fields are modelled by explicit `jsTruthy*`
functions on `Option` values, where `none` stands for an absent or null
field.
-/

namespace SmartBudget

/-- a transaction; only identity and one payload field matter to the sync
layer (merge compares by `id`, never by content). -/
structure Transaction where
  id : String
  amount : Int
  deriving DecidableEq, Repr

/-- an account row of the local snapshot. -/
structure Account where
  id : String
  name : String
  deriving DecidableEq, Repr

/-- a category row of the local snapshot. -/
structure Category where
  id : String
  name : String
  deriving DecidableEq, Repr

/-- a per-category budget entry. -/
structure CategoryBudget where
  categoryId : String
  amount : Int
  deriving DecidableEq, Repr

/-- the app settings object; the sync layer treats it as one opaque value. -/
structure AppSettings where
  language : String
  currency : String
  deriving DecidableEq, Repr

/-- the six-field local working snapshot held by the provider in
`Settings.tsx`: transactions, accounts, categories, settings, budget,
categoryBudgets. -/
structure LocalSnapshot where
  transactions : List Transaction
  accounts : List Account
  categories : List Category
  settings : AppSettings
  budget : Int
  categoryBudgets : List CategoryBudget
  deriving DecidableEq, Repr

/-- the `data` field of a remote backup record. Each field may be absent
or null in the stored JSON, which the restore code tests with a JS
truthiness check; `none` models an absent/null field. -/
structure RemoteData where
  transactions : Option (List Transaction)
  accounts : Option (List Account)
  categories : Option (List Category)
  settings : Option AppSettings
  budget : Option Int
  categoryBudgets : Option (List CategoryBudget)
  deriving DecidableEq, Repr

/-- JS truthiness of an array- or object-valued field: any present array
or object is truthy (even an empty array), null/absent is falsy. -/
def jsTruthyObj {α : Type} (o : Option α) : Bool :=
  o.isSome

/-- JS truthiness of a number-valued field: present and nonzero. -/
def jsTruthyNum (o : Option Int) : Bool :=
  match o with
  | some v => v != 0
  | none => false

/-- the `data` object built by `backupUserData` in `Settings.tsx` (line
2197): all six fields of the current snapshot, all present. -/
def backupData (s : LocalSnapshot) : RemoteData :=
  { transactions := some s.transactions
    accounts := some s.accounts
    categories := some s.categories
    settings := some s.settings
    budget := some s.budget
    categoryBudgets := some s.categoryBudgets }

/-- the `replace` branch of `restoreBackup` in `Settings.tsx` (lines
2220-2226): six sequential `if (remoteData.f) set…(remoteData.f)`
statements, each overwriting one local field when the remote field is
truthy. Arrays and the settings object are truthy whenever present; the
numeric budget is truthy only when nonzero. -/
def restoreReplace (l : LocalSnapshot) (r : RemoteData) : LocalSnapshot :=
  let l1 := match r.transactions with
    | some v => { l with transactions := v }
    | none => l
  let l2 := match r.accounts with
    | some v => { l1 with accounts := v }
    | none => l1
  let l3 := match r.categories with
    | some v => { l2 with categories := v }
    | none => l2
  let l4 := match r.settings with
    | some v => { l3 with settings := v }
    | none => l3
  let l5 := match r.budget with
    | some v => if v != 0 then { l4 with budget := v } else l4
    | none => l4
  match r.categoryBudgets with
  | some v => { l5 with categoryBudgets := v }
  | none => l5

/-- the ids of a transaction list, as collected into the `localIds` set in
the `merge` branch of `restoreBackup` (`Settings.tsx` line 2228). -/
def txIds (l : List Transaction) : List String :=
  l.map Transaction.id

/-- the `merge` branch of `restoreBackup` in `Settings.tsx` (lines
2227-2231): append to the local list exactly those remote transactions
whose id is not already present locally. -/
def mergeTransactions (localTxs remoteTxs : List Transaction) : List Transaction :=
  let localIds := txIds localTxs
  let newTxs := remoteTxs.filter (fun t => !(localIds.contains t.id))
  localTxs ++ newTxs

/-- a concrete snapshot used to instantiate theorems with hypotheses. -/
def sampleSnapshot : LocalSnapshot :=
  { transactions := [{ id := "t1", amount := 5 }]
    accounts := [{ id := "a1", name := "Cash" }]
    categories := [{ id := "c1", name := "Food" }]
    settings := { language := "en", currency := "USD" }
    budget := 100
    categoryBudgets := [{ categoryId := "c1", amount := 40 }] }

/-- restoring the backup of a snapshot over that same snapshot is the
identity: every remote field is present and either truthy (hence
overwritten with the identical value) or falsy (hence left alone, again
the identical value). -/
theorem restoreReplace_backupData_eq (S : LocalSnapshot) :
    restoreReplace S (backupData S) = S := by
  rcases S with ⟨t, a, c, s, b, cb⟩
  simp only [restoreReplace, backupData]
  split <;> rfl

/-- C1: for every local snapshot S, performing backup and then restore
with the replace strategy, with no intervening local mutation, yields a
snapshot equal to S in every field that was truthy (non-empty) at backup
time. -/
theorem backup_then_restore_replace_roundtrip (S : LocalSnapshot) :
    (jsTruthyObj (backupData S).transactions = true →
      (restoreReplace S (backupData S)).transactions = S.transactions)
  ∧ (jsTruthyObj (backupData S).accounts = true →
      (restoreReplace S (backupData S)).accounts = S.accounts)
  ∧ (jsTruthyObj (backupData S).categories = true →
      (restoreReplace S (backupData S)).categories = S.categories)
  ∧ (jsTruthyObj (backupData S).settings = true →
      (restoreReplace S (backupData S)).settings = S.settings)
  ∧ (jsTruthyNum (backupData S).budget = true →
      (restoreReplace S (backupData S)).budget = S.budget)
  ∧ (jsTruthyObj (backupData S).categoryBudgets = true →
      (restoreReplace S (backupData S)).categoryBudgets = S.categoryBudgets) :=
  ⟨fun _ => by rw [restoreReplace_backupData_eq],
   fun _ => by rw [restoreReplace_backupData_eq],
   fun _ => by rw [restoreReplace_backupData_eq],
   fun _ => by rw [restoreReplace_backupData_eq],
   fun _ => by rw [restoreReplace_backupData_eq],
   fun _ => by rw [restoreReplace_backupData_eq]⟩

/-- C1 witness: the round trip at a concrete snapshot whose fields are
all truthy, with each truthiness hypothesis discharged by computation. -/
theorem backup_then_restore_replace_roundtrip_witness :
    (restoreReplace sampleSnapshot (backupData sampleSnapshot)).transactions
      = sampleSnapshot.transactions
  ∧ (restoreReplace sampleSnapshot (backupData sampleSnapshot)).budget
      = sampleSnapshot.budget :=
  ⟨(backup_then_restore_replace_roundtrip sampleSnapshot).1 (by decide),
   (backup_then_restore_replace_roundtrip sampleSnapshot).2.2.2.2.1 (by decide)⟩

/-- C2: replace-restore overwrites each of the six snapshot fields if and
only if the corresponding remote field is present and truthy, each field
depending only on its own remote value; in particular a remote record
with an absent accounts field leaves local accounts unchanged. -/
theorem restoreReplace_fieldwise (l : LocalSnapshot) (r : RemoteData) :
    (restoreReplace l r).transactions
      = (if jsTruthyObj r.transactions then r.transactions.getD l.transactions
         else l.transactions)
  ∧ (restoreReplace l r).accounts
      = (if jsTruthyObj r.accounts then r.accounts.getD l.accounts else l.accounts)
  ∧ (restoreReplace l r).categories
      = (if jsTruthyObj r.categories then r.categories.getD l.categories
         else l.categories)
  ∧ (restoreReplace l r).settings
      = (if jsTruthyObj r.settings then r.settings.getD l.settings else l.settings)
  ∧ (restoreReplace l r).budget
      = (if jsTruthyNum r.budget then r.budget.getD l.budget else l.budget)
  ∧ (restoreReplace l r).categoryBudgets
      = (if jsTruthyObj r.categoryBudgets then r.categoryBudgets.getD l.categoryBudgets
         else l.categoryBudgets) := by
  rcases r with ⟨t, a, c, s, b, cb⟩
  cases t <;> cases a <;> cases c <;> cases s <;> cases cb <;> cases b <;>
    simp [restoreReplace, jsTruthyObj, jsTruthyNum] <;>
    split <;> simp_all

/-- every transaction of the remote list has its id among the ids of the
merged list produced by one merge pass. -/
theorem mem_txIds_merge (l r : List Transaction) :
    ∀ t ∈ r, t.id ∈ txIds (mergeTransactions l r) := by
  intro t ht
  simp only [mergeTransactions, txIds, List.map_append, List.mem_append]
  by_cases hmem : t.id ∈ l.map Transaction.id
  · exact Or.inl hmem
  · refine Or.inr ?_
    refine List.mem_map.mpr ⟨t, ?_, rfl⟩
    refine List.mem_filter.mpr ⟨ht, ?_⟩
    simpa [txIds] using hmem

/-- C3: merge-restore is idempotent: after one merge pass every remote
transaction id is already present locally, so a second pass with the same
remote record filters out every remote transaction and leaves the local
list unchanged. -/
theorem mergeTransactions_idempotent (l r : List Transaction) :
    mergeTransactions (mergeTransactions l r) r = mergeTransactions l r := by
  have hnil :
      r.filter (fun t => !((txIds (mergeTransactions l r)).contains t.id)) = [] := by
    rw [List.filter_eq_nil_iff]
    intro t ht
    simp only [Bool.not_eq_true, Bool.not_eq_true']
    simpa using mem_txIds_merge l r t ht
  conv_lhs => rw [mergeTransactions]
  simp only [hnil, List.append_nil]

/-!
Model of `cloudDrive.backupUserData` (`src/services/cloudDrive.ts` lines
213-265). The remote store is external: the outcome of the upsert request
raced against the 30 second timer is passed in as an `Except` value
(`Except.error` covers a remote rejection as well as the synthesized
timeout, both of which the source rethrows as plain errors). The row
returned by `select updated_at ... single()` is modelled by `ServerRow`,
whose `updated_at` may be null (`none`). -/

/-- the row echoed back by the remote store after the upsert; a null or
absent `updated_at` column is `none`. -/
structure ServerRow where
  updated_at : Option String
  deriving DecidableEq, Repr

/-- the value `backupUserData` resolves with on success. -/
structure BackupResult where
  timestamp : String
  skipped : Bool
  deriving DecidableEq, Repr

/-- the failure modes of `backupUserData` that matter to the claims:
offline fail-fast, payload-too-large fail-fast, and a failed or timed-out
request. -/
inductive BackupError where
  | offline
  | payloadTooLarge
  | requestFailed (msg : String)
  deriving DecidableEq, Repr

/-- the constant `MAX_PAYLOAD_SIZE_BYTES = 6 * 1024 * 1024` of
`cloudDrive.ts` line 13. -/
def MAX_PAYLOAD_SIZE_BYTES : Nat := 6 * 1024 * 1024

/-- the outcome of one run of `backupUserData`: its result together with
whether an upsert request was issued to the remote store at all. -/
structure BackupOutcome where
  result : Except BackupError BackupResult
  requestAttempted : Bool
  deriving Repr

/-- JS truthiness of the echoed `updated_at` string: present and
non-empty (`data?.updated_at || clientTime` falls back to the client
clock when the echo is null, absent, or the empty string). -/
def jsTruthyStr (o : Option String) : Bool :=
  match o with
  | some s => !(s == "")
  | none => false

/-- `cloudDrive.backupUserData`: fail fast when offline; serialize and
fail fast with the size-limit error when the payload byte size strictly
exceeds the 6 MiB ceiling (`sizeBytes > MAX_PAYLOAD_SIZE_BYTES`, line
222) with no request issued; otherwise race the upsert against the timer
and, on success, resolve with `data?.updated_at || clientTime` as the
timestamp (line 261). -/
def backupUserData (isOnline : Bool) (payloadSizeBytes : Nat) (clientTime : String)
    (race : Except String ServerRow) : BackupOutcome :=
  if !isOnline then
    { result := Except.error BackupError.offline, requestAttempted := false }
  else if payloadSizeBytes > MAX_PAYLOAD_SIZE_BYTES then
    { result := Except.error BackupError.payloadTooLarge, requestAttempted := false }
  else
    match race with
    | Except.error e =>
        { result := Except.error (BackupError.requestFailed e), requestAttempted := true }
    | Except.ok row =>
        let ts := match row.updated_at with
          | some u => if u == "" then clientTime else u
          | none => clientTime
        { result := Except.ok { timestamp := ts, skipped := false },
          requestAttempted := true }

/-- the sync-state fields touched by the provider-level backup handler in
`Settings.tsx` lines 2195-2207. -/
structure SyncFlags where
  lastSync : Option String
  unsyncedChanges : Bool
  pendingRestoreAvailable : Bool
  deriving DecidableEq, Repr

/-- the provider-level state update after `cloudDrive.backupUserData`
resolves (`Settings.tsx` lines 2201-2205): `lastSync := result.timestamp`
and `unsyncedChanges := false`. -/
def applyBackupResult (st : SyncFlags) (res : BackupResult) : SyncFlags :=
  { st with lastSync := some res.timestamp, unsyncedChanges := false }

/-- C4 counterexample: a successful backup run in which the store echoes
a row with a null `updated_at` resolves with the client clock time as its
timestamp, so `lastSync` is set to the client clock, not to a
server-echoed update time. -/
theorem backup_lastSync_client_fallback_counterexample :
    (backupUserData true 0 "2026-01-01T00:00:00.000Z"
        (Except.ok { updated_at := none })).result
      = Except.ok { timestamp := "2026-01-01T00:00:00.000Z", skipped := false }
  ∧ (applyBackupResult
        { lastSync := none, unsyncedChanges := true, pendingRestoreAvailable := false }
        { timestamp := "2026-01-01T00:00:00.000Z", skipped := false }).lastSync
      = some "2026-01-01T00:00:00.000Z" := by
  constructor <;> rfl

/-- C4 amended: on every successful backup in which the remote store
echoes a truthy (present, non-empty) `updated_at` value, `lastSync` is
set to that server-echoed value and `unsyncedChanges` is cleared; when
the echo is null or empty the run still succeeds and `lastSync` falls
back to the client clock time. -/
theorem backup_lastSync_server_echo (sz : Nat) (ct u : String) (st : SyncFlags)
    (hsz : sz ≤ MAX_PAYLOAD_SIZE_BYTES) (hu : u ≠ "") :
    (∃ res, (backupUserData true sz ct (Except.ok { updated_at := some u })).result
        = Except.ok res
      ∧ (applyBackupResult st res).lastSync = some u
      ∧ (applyBackupResult st res).unsyncedChanges = false)
  ∧ (∃ res, (backupUserData true sz ct (Except.ok { updated_at := none })).result
        = Except.ok res
      ∧ (applyBackupResult st res).lastSync = some ct) := by
  have hgt : ¬ sz > MAX_PAYLOAD_SIZE_BYTES := Nat.not_lt.mpr hsz
  constructor
  · refine ⟨{ timestamp := u, skipped := false }, ?_, rfl, rfl⟩
    simp [backupUserData, hgt, hu]
  · refine ⟨{ timestamp := ct, skipped := false }, ?_, rfl⟩
    simp [backupUserData, hgt]

/-- C4 amended witness: the theorem instantiated at a concrete size,
client time, echoed value and state. -/
theorem backup_lastSync_server_echo_witness :
    ∃ res, (backupUserData true 10 "clientT"
        (Except.ok { updated_at := some "serverT" })).result = Except.ok res
      ∧ (applyBackupResult
            { lastSync := none, unsyncedChanges := true,
              pendingRestoreAvailable := false } res).lastSync = some "serverT" := by
  obtain ⟨⟨res, h1, h2, _⟩, _⟩ :=
    backup_lastSync_server_echo 10 "clientT" "serverT"
      { lastSync := none, unsyncedChanges := true, pendingRestoreAvailable := false }
      (by decide) (by decide)
  exact ⟨res, h1, h2⟩

/-- C6: a payload of exactly 6 MiB passes the size check and the upsert
request is issued (for every race outcome), while a payload one byte over
fails with the payload-too-large error and no request is ever issued. -/
theorem backup_size_ceiling (ct : String) (race : Except String ServerRow) :
    (backupUserData true MAX_PAYLOAD_SIZE_BYTES ct race).requestAttempted = true
  ∧ (backupUserData true (MAX_PAYLOAD_SIZE_BYTES + 1) ct race).result
      = Except.error BackupError.payloadTooLarge
  ∧ (backupUserData true (MAX_PAYLOAD_SIZE_BYTES + 1) ct race).requestAttempted
      = false := by
  refine ⟨?_, by rfl, by rfl⟩
  rcases race with e | row
  · rfl
  · rfl

/-!
Model of `checkCloudBackup` (`Settings.tsx` lines 1930-1945). The fetch
outcome of `cloudDrive.restoreBackup` is passed in: `none` covers both a
fetch error and a missing remote record (the source catches all errors
and `restoreBackup` itself returns null on error). Timestamps are
modelled after parsing: `metadataTimestamp = some t` stands for a truthy
timestamp string whose `new Date(...).getTime()` is `t` milliseconds, and
`none` for a null/absent (falsy) timestamp. Times are compared as
integers exactly as the source compares `getTime()` values. -/

/-- the part of a fetched backup record that the login-time check reads. -/
structure BackupFetch where
  metadataTimestamp : Option Int
  deriving DecidableEq, Repr

/-- `checkCloudBackup`: when a record with a truthy timestamp was
fetched, compare its parsed time with the parsed local `lastSync` (a null
local value compares as 0, line 1936) and set
`pendingRestoreAvailable := true` exactly when the cloud time is strictly
greater (line 1938); in every other case the flag is left unchanged. -/
def checkCloudBackup (fetch : Option BackupFetch) (localLastSync : Option Int)
    (pending : Bool) : Bool :=
  match fetch with
  | none => pending
  | some b =>
      match b.metadataTimestamp with
      | none => pending
      | some cloudTime =>
          let localTime := match localLastSync with
            | some t => t
            | none => 0
          if cloudTime > localTime then true else pending

/-- C5 counterexample: with a null local `lastSync` and an existing
remote record whose timestamp parses to epoch time 0, the check leaves
`pendingRestoreAvailable` false, because the comparison `0 > 0` is
strict; the claim that any existing remote record always sets the flag is
therefore false. -/
theorem checkCloudBackup_epoch_counterexample :
    checkCloudBackup (some { metadataTimestamp := some 0 }) none false = false := by
  rfl

/-- C5 amended: the check sets the flag exactly when the fetched record
carries a truthy timestamp strictly greater than the local `lastSync`
time (a null local value comparing as 0); in particular, with a null
local value any record with a positive parsed timestamp sets the flag,
and a failed fetch or missing record leaves the flag unchanged. -/
theorem checkCloudBackup_spec (fetch : Option BackupFetch)
    (localLastSync : Option Int) (pending : Bool) :
    (checkCloudBackup fetch localLastSync pending = true ↔
      pending = true ∨
        ∃ t, fetch.bind BackupFetch.metadataTimestamp = some t ∧
          (match localLastSync with | some v => v | none => 0) < t)
  ∧ checkCloudBackup none localLastSync pending = pending
  ∧ (∀ t : Int, 0 < t →
      checkCloudBackup (some { metadataTimestamp := some t }) none pending = true) := by
  refine ⟨?_, rfl, ?_⟩
  · rcases fetch with _ | ⟨ts⟩
    · simp [checkCloudBackup]
    · rcases ts with _ | t
      · simp [checkCloudBackup]
      · rcases localLastSync with _ | v <;>
          simp [checkCloudBackup] <;> exact Or.comm
  · intro t ht
    simp only [checkCloudBackup]
    split
    · rfl
    · omega

/-- C5 amended witness: a record one millisecond past the epoch with a
null local `lastSync` sets the flag. -/
theorem checkCloudBackup_spec_witness :
    checkCloudBackup (some { metadataTimestamp := some 1 }) none false = true :=
  (checkCloudBackup_spec (some { metadataTimestamp := some 1 }) none false).2.2 1
    (by decide)

/-!
The `unsyncedChanges` flag. Every local mutation handler of the provider
calls `markAsDirty` (`Settings.tsx` lines 1914-1918), which sets the flag
to true; the flag is set to false by the backup handler on success (line
2204) and by the restore handler after a successful replace or merge
(line 2237); the skip strategy returns before that update (line 2212),
a failed backup or restore throws or returns before it, and no other
provider operation touches the flag. Each constructor of `AppOp` is one
of these operations; the step function records exactly the effect each
has on the flag in the source. -/

/-- the provider operations relevant to the `unsyncedChanges` flag. -/
inductive AppOp where
  | addTransaction
  | updateTransaction
  | deleteTransaction
  | importTransactions
  | addAccount
  | updateAccountName
  | deleteAccount
  | addCategory
  | updateCategory
  | deleteCategory
  | updateBudget
  | updateCategoryBudget
  | updateSettings
  | backupSuccess
  | backupFailure
  | restoreReplaceSuccess
  | restoreMergeSuccess
  | restoreSkip
  | restoreFailure
  | checkCloudBackupRun
  | switchWalletRun
  | loginRun
  | logoutRun
  deriving DecidableEq, Repr

/-- the thirteen local mutation handlers, all of which call
`markAsDirty`. -/
def isLocalMutation : AppOp → Bool
  | AppOp.addTransaction => true
  | AppOp.updateTransaction => true
  | AppOp.deleteTransaction => true
  | AppOp.importTransactions => true
  | AppOp.addAccount => true
  | AppOp.updateAccountName => true
  | AppOp.deleteAccount => true
  | AppOp.addCategory => true
  | AppOp.updateCategory => true
  | AppOp.deleteCategory => true
  | AppOp.updateBudget => true
  | AppOp.updateCategoryBudget => true
  | AppOp.updateSettings => true
  | _ => false

/-- the effect of each provider operation on the `unsyncedChanges` flag,
transcribed from the source: mutations set it (via `markAsDirty`), a
successful backup or a successful replace/merge restore clears it, and
every other operation leaves it unchanged. -/
def unsyncedStep (b : Bool) : AppOp → Bool
  | AppOp.addTransaction => true
  | AppOp.updateTransaction => true
  | AppOp.deleteTransaction => true
  | AppOp.importTransactions => true
  | AppOp.addAccount => true
  | AppOp.updateAccountName => true
  | AppOp.deleteAccount => true
  | AppOp.addCategory => true
  | AppOp.updateCategory => true
  | AppOp.deleteCategory => true
  | AppOp.updateBudget => true
  | AppOp.updateCategoryBudget => true
  | AppOp.updateSettings => true
  | AppOp.backupSuccess => false
  | AppOp.restoreReplaceSuccess => false
  | AppOp.restoreMergeSuccess => false
  | _ => b

/-- C7: every local mutation sets `unsyncedChanges`; the flag becomes
false from true only through a successful backup or a successful
replace/merge restore, and those three operations always clear it; every
other operation (including skip restore and failed backup/restore)
leaves the flag unchanged. -/
theorem unsyncedChanges_flag_spec (b : Bool) (op : AppOp) :
    (isLocalMutation op = true → unsyncedStep b op = true)
  ∧ (unsyncedStep true op = false →
      op = AppOp.backupSuccess ∨ op = AppOp.restoreReplaceSuccess ∨
        op = AppOp.restoreMergeSuccess)
  ∧ unsyncedStep b AppOp.backupSuccess = false
  ∧ unsyncedStep b AppOp.restoreReplaceSuccess = false
  ∧ unsyncedStep b AppOp.restoreMergeSuccess = false
  ∧ (isLocalMutation op = false → op ≠ AppOp.backupSuccess →
      op ≠ AppOp.restoreReplaceSuccess → op ≠ AppOp.restoreMergeSuccess →
      unsyncedStep b op = b) := by
  cases op <;> cases b <;> simp [isLocalMutation, unsyncedStep]

/-- C7 witness: adding a transaction sets the flag, and a successful
backup clears it. -/
theorem unsyncedChanges_flag_spec_witness :
    unsyncedStep false AppOp.addTransaction = true
  ∧ unsyncedStep true AppOp.backupSuccess = false :=
  ⟨(unsyncedChanges_flag_spec false AppOp.addTransaction).1 rfl,
   (unsyncedChanges_flag_spec true AppOp.backupSuccess).2.2.1⟩

/-!
Model of `switchWallet` (`Settings.tsx` lines 2278-2293). The null
branch reads three personal keys back from local storage and overwrites
the working transactions, accounts and categories with them; it does not
touch the working budget (there is no `setBudgetState` call in that
branch, while the wallet branch at line 2286 does set it). -/

/-- the working fields the switch handler can touch. -/
structure WorkingState where
  transactions : List Transaction
  accounts : List Account
  categories : List Category
  budget : Int
  deriving DecidableEq, Repr

/-- the personal baseline values that `storage.get` returns for the
transactions, accounts, categories and budget keys (fallbacks already
applied). -/
structure PersonalBaseline where
  transactions : List Transaction
  accounts : List Account
  categories : List Category
  budget : Int
  deriving DecidableEq, Repr

/-- the null branch of `switchWallet` (lines 2288-2292): restore
transactions, accounts and categories from local storage; no other
working field is written. -/
def switchWalletNull (stored : PersonalBaseline) (w : WorkingState) : WorkingState :=
  { w with
    transactions := stored.transactions
    accounts := stored.accounts
    categories := stored.categories }

/-- C8 counterexample: switching back to the personal context with a
working budget of 5 and a stored personal budget of 7 leaves the working
budget at 5, so the budget is not reset to the personal baseline. -/
theorem switchWalletNull_budget_counterexample :
    (switchWalletNull
        { transactions := [], accounts := [], categories := [], budget := 7 }
        { transactions := [], accounts := [], categories := [], budget := 5 }).budget
      = 5
  ∧ (switchWalletNull
        { transactions := [], accounts := [], categories := [], budget := 7 }
        { transactions := [], accounts := [], categories := [], budget := 5 }).budget
      ≠ 7 := by
  constructor
  · rfl
  · decide

/-- C8 amended: `switchWallet(null)` resets the working transactions,
accounts and categories to the personal baseline held in local storage,
while the working budget keeps its current value and is not restored. -/
theorem switchWalletNull_spec (stored : PersonalBaseline) (w : WorkingState) :
    (switchWalletNull stored w).transactions = stored.transactions
  ∧ (switchWalletNull stored w).accounts = stored.accounts
  ∧ (switchWalletNull stored w).categories = stored.categories
  ∧ (switchWalletNull stored w).budget = w.budget :=
  ⟨rfl, rfl, rfl, rfl⟩

/-!
Model of `cloudDrive.createWallet` (`cloudDrive.ts` lines 295-329). The
three remote calls of a run — the wallet insert, the membership insert,
and the compensating wallet delete — are external, so their outcomes are
passed in. The source awaits the compensating delete but never inspects
its result (line 320), so a failed delete is silently ignored. The
`residualWalletRows` field records which wallet rows created by this run
are still present in the store when the run ends. -/

/-- a wallet row as inserted into the wallets table. -/
structure WalletRow where
  id : String
  name : String
  currency : String
  deriving DecidableEq, Repr

/-- the outcomes of the three remote calls a `createWallet` run can
issue. -/
structure CreateWalletCalls where
  walletInsert : Except String WalletRow
  memberInsert : Except String Unit
  walletDelete : Except String Unit
  deriving Repr

/-- the observable outcome of one `createWallet` run. -/
structure CreateWalletOutcome where
  result : Except String WalletRow
  residualWalletRows : List WalletRow
  deleteAttempted : Bool
  deriving Repr

/-- `createWallet`: insert the wallet row; on failure, rethrow with no
row created. Then insert the owner membership row; on its failure, issue
the compensating delete of the wallet row (ignoring the delete outcome)
and rethrow — the wallet row remains in the store exactly when the
ignored delete itself failed. On full success the wallet row remains,
with its owner membership. -/
def createWallet (c : CreateWalletCalls) : CreateWalletOutcome :=
  match c.walletInsert with
  | Except.error e =>
      { result := Except.error e, residualWalletRows := [], deleteAttempted := false }
  | Except.ok w =>
      match c.memberInsert with
      | Except.ok _ =>
          { result := Except.ok w, residualWalletRows := [w], deleteAttempted := false }
      | Except.error e =>
          let residual := match c.walletDelete with
            | Except.ok _ => []
            | Except.error _ => [w]
          { result := Except.error ("Failed to assign owner: " ++ e),
            residualWalletRows := residual, deleteAttempted := true }

/-- C9 counterexample: a run whose wallet insert succeeds, whose
membership insert fails, and whose compensating delete itself fails (its
outcome is ignored by the source) ends with the wallet row still in the
store, so a failed `createWallet` can leave a residual wallet row. -/
theorem createWallet_residual_counterexample :
    (createWallet
        { walletInsert := Except.ok { id := "w1", name := "Trip", currency := "USD" }
          memberInsert := Except.error "rls violation"
          walletDelete := Except.error "network error" }).residualWalletRows
      = [{ id := "w1", name := "Trip", currency := "USD" }] := by
  rfl

/-- C9 amended: whenever the wallet insert succeeds and the membership
insert fails, the compensating delete is issued and `createWallet`
reports an error; when that delete succeeds, zero residual wallet rows
remain — but the delete outcome is ignored, so a failed delete leaves
the row behind. -/
theorem createWallet_rollback (c : CreateWalletCalls) (w : WalletRow) (e : String)
    (hw : c.walletInsert = Except.ok w) (hm : c.memberInsert = Except.error e) :
    (createWallet c).deleteAttempted = true
  ∧ (∃ msg, (createWallet c).result = Except.error msg)
  ∧ (c.walletDelete = Except.ok () → (createWallet c).residualWalletRows = []) := by
  have hc : createWallet c =
      { result := Except.error ("Failed to assign owner: " ++ e)
        residualWalletRows := match c.walletDelete with
          | Except.ok _ => []
          | Except.error _ => [w]
        deleteAttempted := true } := by
    simp only [createWallet, hw, hm]
  refine ⟨by rw [hc], ⟨"Failed to assign owner: " ++ e, by rw [hc]⟩, ?_⟩
  intro hd
  rw [hc]
  simp [hd]

/-- C9 amended witness: a concrete run with a successful wallet insert, a
failed membership insert and a successful compensating delete leaves no
residual wallet row and reports an error. -/
theorem createWallet_rollback_witness :
    (createWallet
        { walletInsert := Except.ok { id := "w1", name := "Trip", currency := "USD" }
          memberInsert := Except.error "rls violation"
          walletDelete := Except.ok () }).deleteAttempted = true
  ∧ (∃ msg, (createWallet
        { walletInsert := Except.ok { id := "w1", name := "Trip", currency := "USD" }
          memberInsert := Except.error "rls violation"
          walletDelete := Except.ok () }).result = Except.error msg)
  ∧ (createWallet
        { walletInsert := Except.ok { id := "w1", name := "Trip", currency := "USD" }
          memberInsert := Except.error "rls violation"
          walletDelete := Except.ok () }).residualWalletRows = [] := by
  obtain ⟨h1, h2, h3⟩ :=
    createWallet_rollback
      { walletInsert := Except.ok { id := "w1", name := "Trip", currency := "USD" }
        memberInsert := Except.error "rls violation"
        walletDelete := Except.ok () }
      { id := "w1", name := "Trip", currency := "USD" } "rls violation" rfl rfl
  exact ⟨h1, h2, h3 rfl⟩

/-!
Model of the auto-backup effect (`Settings.tsx` lines 2242-2264). The
effect body returns immediately — installing no timer and never calling
backup — unless the user is logged in, online, auto-backup is not off,
and `syncState.lastSync` is truthy (line 2243). When the guard passes,
each tick compares the elapsed time since `lastSync` against the
configured interval (`daily` 24 h, otherwise 168 h) and invokes the
backup when strictly exceeded. Times are parsed milliseconds. -/

/-- the auto-backup setting values. -/
inductive AutoBackupSetting where
  | off
  | daily
  | weekly
  deriving DecidableEq, Repr

/-- the sync-state fields the auto-backup guard reads. -/
structure AutoBackupState where
  isLoggedIn : Bool
  isOnline : Bool
  autoBackup : AutoBackupSetting
  lastSync : Option Int
  deriving DecidableEq, Repr

/-- whether one evaluation of the auto-backup check at time `now` invokes
the backup: false whenever the effect guard at line 2243 bails out (not
logged in, offline, auto-backup off, or a null `lastSync`); otherwise
true exactly when `now - last` strictly exceeds the configured interval
in milliseconds. -/
def autoBackupInvokes (st : AutoBackupState) (now : Int) : Bool :=
  if !st.isLoggedIn || !st.isOnline || st.autoBackup == AutoBackupSetting.off
      || st.lastSync.isNone then
    false
  else
    match st.lastSync with
    | none => false
    | some last =>
        let intervalHours : Int :=
          if st.autoBackup == AutoBackupSetting.daily then 24 else 168
        let intervalMs := intervalHours * 60 * 60 * 1000
        decide (now - last > intervalMs)

/-- C10: while `lastSync` is null the periodic auto-backup check never
invokes the backup, whatever the login, online and interval
configuration; conversely an invocation implies `lastSync` was set, so an
automatic backup can only happen after some successful backup or restore
has set `lastSync`. -/
theorem autoBackup_requires_lastSync (st : AutoBackupState) (now : Int) :
    (st.lastSync = none → autoBackupInvokes st now = false)
  ∧ (autoBackupInvokes st now = true → st.lastSync ≠ none) := by
  have hnull : st.lastSync = none → autoBackupInvokes st now = false := by
    intro h
    simp [autoBackupInvokes, h]
  refine ⟨hnull, ?_⟩
  intro h hnone
  rw [hnull hnone] at h
  exact Bool.false_ne_true h

/-- C10 witness: a logged-in, online state with daily auto-backup and a
null `lastSync` does not invoke the backup. -/
theorem autoBackup_requires_lastSync_witness :
    autoBackupInvokes
      { isLoggedIn := true, isOnline := true,
        autoBackup := AutoBackupSetting.daily, lastSync := none } 1000000 = false :=
  (autoBackup_requires_lastSync
      { isLoggedIn := true, isOnline := true,
        autoBackup := AutoBackupSetting.daily, lastSync := none } 1000000).1 rfl

end SmartBudget
